import Mathlib

/-!
Verification of the Twenty20 break-reminder timer core: a shallow embedding of
the timer data model (src-tauri/src/timer.rs), the command surface
(src-tauri/src/commands.rs), the configuration validation
(src-tauri/src/config.rs) and the once-per-second timer loop
(src-tauri/src/lib.rs, run_timer_loop), together with theorems settling the
frozen specification claims about them.

Machine integers of the source (u32, u64) are modelled as Nat; wherever the
source performs arithmetic that can overflow or truncate, the reduction modulo
2^32 is written explicitly.  Saturating subtraction on unsigned integers is
Nat subtraction.  Fallible commands return an Except value paired with the
timer state after the call, so that a rejected command provably leaves the
state unchanged.
-/

namespace Twenty20

/-- 2^32, the modulus of u32 arithmetic. -/
def u32Mod : Nat := 4294967296

/-- PauseReason from timer.rs. -/
inductive PauseReason where
  | Manual
  | Meeting
deriving DecidableEq, Repr

/-- TimerState from timer.rs. -/
structure TimerState where
  seconds_remaining : Nat
  is_paused : Bool
  pause_reason : Option PauseReason
  is_strict_mode : Bool
  work_interval_seconds : Nat
  manual_pause_seconds_remaining : Option Nat
deriving DecidableEq, Repr

/-- AppConfig from config.rs. -/
structure AppConfig where
  work_interval_minutes : Nat
  break_duration_seconds : Nat
  strict_mode : Bool
  overlay_theme : String
  sound : String
  launch_at_login : Bool
  pre_warning_seconds : Nat
  meeting_detection : Bool
deriving DecidableEq, Repr

/-- The work interval in seconds computed from minutes; the source computes
work_interval_minutes * 60 in u32 arithmetic. -/
def intervalOf (minutes : Nat) : Nat := minutes * 60 % u32Mod

/-- TimerState.new from timer.rs. -/
def TimerState.new (config : AppConfig) : TimerState :=
  { seconds_remaining := intervalOf config.work_interval_minutes
    is_paused := false
    pause_reason := none
    is_strict_mode := config.strict_mode
    work_interval_seconds := intervalOf config.work_interval_minutes
    manual_pause_seconds_remaining := none }

/-- Rust clamp on unsigned integers. -/
def clampNat (x lo hi : Nat) : Nat := min (max x lo) hi

/-- AppConfig.validated from config.rs. -/
def AppConfig.validated (c : AppConfig) : AppConfig :=
  { c with
    work_interval_minutes := clampNat c.work_interval_minutes 1 60
    break_duration_seconds := clampNat c.break_duration_seconds 5 60
    pre_warning_seconds :=
      if c.pre_warning_seconds ≠ 0 then clampNat c.pre_warning_seconds 30 120
      else c.pre_warning_seconds
    overlay_theme :=
      if c.overlay_theme = "dark" ∨ c.overlay_theme = "light" ∨ c.overlay_theme = "nature" then
        c.overlay_theme
      else "dark"
    sound :=
      if c.sound = "off" ∨ c.sound = "chime" ∨ c.sound = "whitenoise" then c.sound
      else "off" }

/-- PersistedTimer from timer.rs: the durable record. -/
structure PersistedTimer where
  seconds_remaining : Nat
  saved_at : Nat
deriving DecidableEq, Repr

/-- restore_or_create from timer.rs.  The on-disk load result and the current
unix time are parameters.  The source computes
elapsed = now.saturating_sub(saved_at) on u64 and then truncates it with
an as-cast to u32 before the saturating subtraction from seconds_remaining;
the truncation is the explicit mod below. -/
def restore_or_create (persisted : Option PersistedTimer) (now : Nat)
    (config : AppConfig) : TimerState :=
  let interval := intervalOf config.work_interval_minutes
  match persisted with
  | some p =>
    if p.seconds_remaining > interval then TimerState.new config
    else
      let elapsed := now - p.saved_at
      let adjusted := p.seconds_remaining - elapsed % u32Mod
      if adjusted = 0 then TimerState.new config
      else
        { seconds_remaining := adjusted
          is_paused := false
          pause_reason := none
          is_strict_mode := config.strict_mode
          work_interval_seconds := interval
          manual_pause_seconds_remaining := none }
  | none => TimerState.new config

/-- Events published by the core (lib.rs / commands.rs / overlay.rs). -/
inductive Event where
  | timerTick (seconds_remaining : Nat) (is_paused : Bool) (pause_reason : Option PauseReason)
  | breakStart (duration : Nat)
  | breakTick (seconds_remaining : Nat)
  | breakEnd (force_skipped : Bool)
  | preBreakNotification (lead_seconds : Nat)
deriving DecidableEq, Repr

/-- skip_break from commands.rs. -/
def skip_break (ts : TimerState) : Except String Unit × TimerState :=
  if ts.is_strict_mode = true then (Except.error "Strict mode: cannot skip breaks", ts)
  else
    (Except.ok (),
      { ts with
        seconds_remaining := ts.work_interval_seconds
        is_paused := false
        pause_reason := none })

/-- pause_timer from commands.rs; minutes * 60 is u32 arithmetic. -/
def pause_timer (minutes : Nat) (ts : TimerState) : Except String Unit × TimerState :=
  if ts.is_strict_mode = true then (Except.error "Strict mode: cannot pause timer", ts)
  else
    (Except.ok (),
      { ts with
        is_paused := true
        pause_reason := some PauseReason.Manual
        manual_pause_seconds_remaining := some (minutes * 60 % u32Mod) })

/-- resume_timer from commands.rs. -/
def resume_timer (ts : TimerState) : Except String Unit × TimerState :=
  if ts.pause_reason = some PauseReason.Meeting then
    (Except.error "Cannot manually resume — meeting in progress", ts)
  else
    (Except.ok (),
      { ts with
        is_paused := false
        pause_reason := none
        manual_pause_seconds_remaining := none })

/-- force_skip_break from commands.rs: always succeeds, resets the timer
fields and emits a forced break-end event.  It has no access to the loop-local
break phase variables. -/
def force_skip_break (ts : TimerState) : Except String Unit × TimerState × List Event :=
  (Except.ok (),
    { ts with
      seconds_remaining := ts.work_interval_seconds
      is_paused := false
      pause_reason := none },
    [Event.breakEnd true])

/-- save_config from commands.rs: validates the input, stores it as the new
config, and updates the strict-mode mirror and the work interval on the timer
state.  It does not touch seconds_remaining. -/
def save_config (config : AppConfig) (ts : TimerState) : AppConfig × TimerState :=
  let validated := config.validated
  (validated,
    { ts with
      is_strict_mode := validated.strict_mode
      work_interval_seconds := intervalOf validated.work_interval_minutes })

/-- The loop-local variables of run_timer_loop in lib.rs. -/
structure LoopState where
  meeting_poll_counter : Nat
  break_active : Bool
  break_seconds_left : Nat
  notified_pre_warning : Bool
  persist_counter : Nat
  was_sleeping : Bool
deriving DecidableEq, Repr

/-- The initial loop-local variables of run_timer_loop. -/
def LoopState.init : LoopState :=
  { meeting_poll_counter := 0
    break_active := false
    break_seconds_left := 0
    notified_pre_warning := false
    persist_counter := 0
    was_sleeping := false }

/-- maybe_persist from lib.rs: advance the throttled-persistence counter,
resetting it every 30th call (the disk write itself is I/O). -/
def maybePersist (ls : LoopState) : LoopState :=
  let counter := ls.persist_counter + 1
  if 30 ≤ counter then { ls with persist_counter := 0 }
  else { ls with persist_counter := counter }

/-- The meeting-detection section of run_timer_loop: increment the poll
counter; every 30th awake tick with detection enabled, consult the probe
result.  A newly detected meeting aborts an active break (resetting the
countdown to the full interval) and enters the meeting pause; a vanished
meeting while meeting-paused clears the pause. -/
def meetingStep (config_interval : Nat) (meeting_detection meeting_now : Bool)
    (ls : LoopState) (ts : TimerState) : LoopState × TimerState :=
  let ls := { ls with meeting_poll_counter := ls.meeting_poll_counter + 1 }
  if meeting_detection = true ∧ 30 ≤ ls.meeting_poll_counter then
    let ls := { ls with meeting_poll_counter := 0 }
    if meeting_now = true ∧ ts.pause_reason ≠ some PauseReason.Meeting then
      if ls.break_active = true then
        ({ ls with break_active := false },
          { ts with
            seconds_remaining := config_interval
            is_paused := true
            pause_reason := some PauseReason.Meeting })
      else
        (ls, { ts with is_paused := true, pause_reason := some PauseReason.Meeting })
    else if meeting_now = false ∧ ts.pause_reason = some PauseReason.Meeting then
      (ls, { ts with is_paused := false, pause_reason := none })
    else (ls, ts)
  else (ls, ts)

/-- The break-countdown section of run_timer_loop: decrement the local break
counter first (saturating), then test for zero; at zero end the break and
reset the work countdown, otherwise emit a break tick. -/
def breakStep (config_interval : Nat) (ls : LoopState) (ts : TimerState) :
    LoopState × TimerState × List Event :=
  let bsl := ls.break_seconds_left - 1
  if bsl = 0 then
    ({ ls with break_active := false, notified_pre_warning := false, break_seconds_left := bsl },
      { ts with
        seconds_remaining := config_interval
        is_paused := false
        pause_reason := none },
      [Event.breakEnd false])
  else
    ({ ls with break_seconds_left := bsl }, ts, [Event.breakTick bsl])

/-- The paused-handling section of run_timer_loop: step the manual-pause
auto-resume countdown (clearing the pause when it expires under a Manual
reason), then emit a tick reflecting the possibly-updated state and apply
throttled persistence. -/
def pausedStep (ls : LoopState) (ts : TimerState) :
    LoopState × TimerState × List Event :=
  let ts :=
    match ts.manual_pause_seconds_remaining with
    | some 0 =>
      let ts := { ts with manual_pause_seconds_remaining := none }
      if ts.pause_reason = some PauseReason.Manual then
        { ts with is_paused := false, pause_reason := none }
      else ts
    | some (r + 1) => { ts with manual_pause_seconds_remaining := some r }
    | none => ts
  (maybePersist ls, ts,
    [Event.timerTick ts.seconds_remaining ts.is_paused ts.pause_reason])

/-- The working-countdown section of run_timer_loop: decrement
seconds_remaining with a floor at zero, fire the one-shot pre-break
notification when the lead time is hit, emit a tick, apply throttled
persistence, and enter the break phase when the countdown reaches zero. -/
def workStep (config_break_dur pre_warning_secs : Nat) (ls : LoopState) (ts : TimerState) :
    LoopState × TimerState × List Event :=
  let ts :=
    if 0 < ts.seconds_remaining then { ts with seconds_remaining := ts.seconds_remaining - 1 }
    else ts
  let p :=
    if ls.notified_pre_warning = false ∧ 0 < pre_warning_secs ∧
        ts.seconds_remaining = pre_warning_secs then
      ({ ls with notified_pre_warning := true },
        [Event.preBreakNotification pre_warning_secs])
    else (ls, ([] : List Event))
  let ls := maybePersist p.1
  let events := p.2 ++ [Event.timerTick ts.seconds_remaining false none]
  if ts.seconds_remaining = 0 then
    ({ ls with break_active := true, break_seconds_left := config_break_dur }, ts,
      events ++ [Event.breakStart config_break_dur])
  else (ls, ts, events)

/-- One iteration of run_timer_loop from lib.rs, after the one-second sleep.
Inputs: the config snapshot read this tick, the sleep-channel value, and the
meeting-probe result (consulted only on probe ticks).  Returns the updated
loop-local variables, the updated shared timer state and the events emitted
this tick, in emission order. -/
def tick (cfg : AppConfig) (is_sleeping meeting_now : Bool) (ls : LoopState)
    (ts : TimerState) : LoopState × TimerState × List Event :=
  if ls.was_sleeping = false ∧ is_sleeping = true then
    ({ ls with break_active := false, notified_pre_warning := false, was_sleeping := true },
      ts, [])
  else if ls.was_sleeping = true ∧ is_sleeping = false then
    let ts :=
      { ts with
        seconds_remaining := ts.work_interval_seconds
        is_paused := false
        pause_reason := none
        manual_pause_seconds_remaining := none }
    ({ ls with meeting_poll_counter := 0, was_sleeping := false }, ts,
      [Event.timerTick ts.seconds_remaining false none])
  else if is_sleeping = true then (ls, ts, [])
  else
    let config_interval := intervalOf cfg.work_interval_minutes
    let p := meetingStep config_interval cfg.meeting_detection meeting_now ls ts
    if p.1.break_active = true then breakStep config_interval p.1 p.2
    else if p.2.is_paused = true then pausedStep p.1 p.2
    else workStep cfg.break_duration_seconds cfg.pre_warning_seconds p.1 p.2

/-- Iterate the loop for a number of ticks with fixed sleep/meeting inputs,
concatenating the emitted events in order. -/
def runTicks (cfg : AppConfig) (is_sleeping meeting_now : Bool) :
    Nat → LoopState → TimerState → LoopState × TimerState × List Event
  | 0, ls, ts => (ls, ts, [])
  | Nat.succ n, ls, ts =>
    let r := tick cfg is_sleeping meeting_now ls ts
    let r2 := runTicks cfg is_sleeping meeting_now n r.1 r.2.1
    (r2.1, r2.2.1, r.2.2 ++ r2.2.2)

/-- Count the break-end events in an emission trace. -/
def countBreakEnd (events : List Event) : Nat :=
  events.countP fun e => match e with | Event.breakEnd _ => true | _ => false

/-- Count the break-tick events in an emission trace. -/
def countBreakTick (events : List Event) : Nat :=
  events.countP fun e => match e with | Event.breakTick _ => true | _ => false

/-- Count the pre-break notifications in an emission trace. -/
def countPreWarn (events : List Event) : Nat :=
  events.countP fun e => match e with | Event.preBreakNotification _ => true | _ => false

/-- A concrete valid configuration: 20-minute work interval, 20-second break,
strict mode off, meeting detection on. -/
def cfgA : AppConfig :=
  { work_interval_minutes := 20
    break_duration_seconds := 20
    strict_mode := false
    overlay_theme := "dark"
    sound := "off"
    launch_at_login := true
    pre_warning_seconds := 60
    meeting_detection := true }

/-- A concrete fast configuration: 1-minute work interval, 59-second
pre-warning lead time, meeting detection off. -/
def cfgB : AppConfig :=
  { work_interval_minutes := 1
    break_duration_seconds := 5
    strict_mode := false
    overlay_theme := "dark"
    sound := "off"
    launch_at_login := true
    pre_warning_seconds := 59
    meeting_detection := false }

/-- A concrete configuration with a 25-minute work interval. -/
def cfgC : AppConfig :=
  { work_interval_minutes := 25
    break_duration_seconds := 20
    strict_mode := false
    overlay_theme := "dark"
    sound := "off"
    launch_at_login := true
    pre_warning_seconds := 60
    meeting_detection := true }

/-- On an awake tick with no sleep edge, the loop runs the meeting step and
then exactly one of the break, paused, or working sections. -/
theorem tick_awake (cfg : AppConfig) (mn : Bool) (ls : LoopState) (ts : TimerState)
    (hws : ls.was_sleeping = false) :
    tick cfg false mn ls ts =
      (if (meetingStep (intervalOf cfg.work_interval_minutes) cfg.meeting_detection mn
            ls ts).1.break_active = true then
        breakStep (intervalOf cfg.work_interval_minutes)
          (meetingStep (intervalOf cfg.work_interval_minutes) cfg.meeting_detection mn ls ts).1
          (meetingStep (intervalOf cfg.work_interval_minutes) cfg.meeting_detection mn ls ts).2
      else if (meetingStep (intervalOf cfg.work_interval_minutes) cfg.meeting_detection mn
            ls ts).2.is_paused = true then
        pausedStep
          (meetingStep (intervalOf cfg.work_interval_minutes) cfg.meeting_detection mn ls ts).1
          (meetingStep (intervalOf cfg.work_interval_minutes) cfg.meeting_detection mn ls ts).2
      else
        workStep cfg.break_duration_seconds cfg.pre_warning_seconds
          (meetingStep (intervalOf cfg.work_interval_minutes) cfg.meeting_detection mn ls ts).1
          (meetingStep (intervalOf cfg.work_interval_minutes) cfg.meeting_detection mn ls ts).2) := by
  simp [tick, hws]

/-- The working section updates the timer state only by the guarded decrement
of seconds_remaining, which on Nat is exactly truncated subtraction by one. -/
theorem workStep_timer (bd pw : Nat) (ls : LoopState) (ts : TimerState) :
    (workStep bd pw ls ts).2.1 = { ts with seconds_remaining := ts.seconds_remaining - 1 } := by
  cases ts
  simp only [workStep]
  split <;> split <;> simp_all

/-- The paused section preserves seconds_remaining, the work interval, the
strict-mode mirror, and a Meeting pause. -/
theorem pausedStep_timer (ls : LoopState) (ts : TimerState) :
    (pausedStep ls ts).2.1.seconds_remaining = ts.seconds_remaining ∧
    (pausedStep ls ts).2.1.work_interval_seconds = ts.work_interval_seconds ∧
    (pausedStep ls ts).2.1.is_strict_mode = ts.is_strict_mode ∧
    (ts.pause_reason = some PauseReason.Meeting →
      (pausedStep ls ts).2.1.is_paused = ts.is_paused ∧
      (pausedStep ls ts).2.1.pause_reason = some PauseReason.Meeting) := by
  rcases hm : ts.manual_pause_seconds_remaining with _ | ⟨_ | r⟩ <;>
    simp_all [pausedStep] <;> split <;> simp_all

/-- The paused section emits exactly one timer-tick event and nothing else. -/
theorem pausedStep_events (ls : LoopState) (ts : TimerState) :
    ∃ s b p, (pausedStep ls ts).2.2 = [Event.timerTick s b p] := by
  exact ⟨_, _, _, rfl⟩

/-- The break section never changes the work interval, and sets
seconds_remaining either to the configured interval or not at all. -/
theorem breakStep_timer (ci : Nat) (ls : LoopState) (ts : TimerState) :
    (breakStep ci ls ts).2.1.work_interval_seconds = ts.work_interval_seconds ∧
    ((breakStep ci ls ts).2.1.seconds_remaining = ci ∨
      (breakStep ci ls ts).2.1.seconds_remaining = ts.seconds_remaining) := by
  simp only [breakStep]
  split
  · exact ⟨rfl, Or.inl rfl⟩
  · exact ⟨rfl, Or.inr rfl⟩

/-- The meeting section never changes the work interval, the strict-mode
mirror, or the manual-pause countdown, and sets seconds_remaining either to
the configured interval or not at all. -/
theorem meetingStep_timer (ci : Nat) (md mn : Bool) (ls : LoopState) (ts : TimerState) :
    (meetingStep ci md mn ls ts).2.work_interval_seconds = ts.work_interval_seconds ∧
    (meetingStep ci md mn ls ts).2.is_strict_mode = ts.is_strict_mode ∧
    (meetingStep ci md mn ls ts).2.manual_pause_seconds_remaining =
      ts.manual_pause_seconds_remaining ∧
    ((meetingStep ci md mn ls ts).2.seconds_remaining = ci ∨
      (meetingStep ci md mn ls ts).2.seconds_remaining = ts.seconds_remaining) := by
  simp only [meetingStep]
  split
  · split
    · split
      · exact ⟨rfl, rfl, rfl, Or.inl rfl⟩
      · exact ⟨rfl, rfl, rfl, Or.inr rfl⟩
    · split
      · exact ⟨rfl, rfl, rfl, Or.inr rfl⟩
      · exact ⟨rfl, rfl, rfl, Or.inr rfl⟩
  · exact ⟨rfl, rfl, rfl, Or.inr rfl⟩

/-- On a probe tick that reports no meeting while the timer is
meeting-paused, the meeting section clears the pause; this is the loop's
meeting-end branch. -/
theorem meetingStep_end (ci : Nat) (ls : LoopState) (ts : TimerState)
    (h : ts.pause_reason = some PauseReason.Meeting)
    (hpoll : 29 ≤ ls.meeting_poll_counter) :
    meetingStep ci true false ls ts =
      ({ ls with meeting_poll_counter := 0 },
        { ts with is_paused := false, pause_reason := none }) := by
  have h30 : 30 ≤ ls.meeting_poll_counter + 1 := by omega
  cases ls
  cases ts
  simp_all [meetingStep]

/-- On a probe tick that reports a meeting while a break is active and the
timer is not already meeting-paused, the meeting section aborts the break,
resets the countdown to the configured interval and enters the meeting
pause. -/
theorem meetingStep_abort (ci : Nat) (ls : LoopState) (ts : TimerState)
    (h : ts.pause_reason ≠ some PauseReason.Meeting)
    (hpoll : 29 ≤ ls.meeting_poll_counter) (hba : ls.break_active = true) :
    meetingStep ci true true ls ts =
      ({ ls with meeting_poll_counter := 0, break_active := false },
        { ts with
          seconds_remaining := ci
          is_paused := true
          pause_reason := some PauseReason.Meeting }) := by
  have h30 : 30 ≤ ls.meeting_poll_counter + 1 := by omega
  cases ls
  cases ts
  simp_all [meetingStep]

/-- When meeting detection is disabled the meeting section only advances the
poll counter. -/
theorem meetingStep_disabled (ci : Nat) (mn : Bool) (ls : LoopState) (ts : TimerState) :
    meetingStep ci false mn ls ts =
      ({ ls with meeting_poll_counter := ls.meeting_poll_counter + 1 }, ts) := by
  simp [meetingStep]

/-- Single-step unfolding of runTicks. -/
theorem runTicks_succ (cfg : AppConfig) (sl mn : Bool) (n : Nat) (ls : LoopState)
    (ts : TimerState) :
    runTicks cfg sl mn (n + 1) ls ts =
      ((runTicks cfg sl mn n (tick cfg sl mn ls ts).1 (tick cfg sl mn ls ts).2.1).1,
        (runTicks cfg sl mn n (tick cfg sl mn ls ts).1 (tick cfg sl mn ls ts).2.1).2.1,
        (tick cfg sl mn ls ts).2.2 ++
          (runTicks cfg sl mn n (tick cfg sl mn ls ts).1 (tick cfg sl mn ls ts).2.1).2.2) :=
  rfl

/-- Throttled persistence only touches the persistence counter. -/
theorem maybePersist_fields (ls : LoopState) :
    (maybePersist ls).break_active = ls.break_active ∧
    (maybePersist ls).was_sleeping = ls.was_sleeping ∧
    (maybePersist ls).notified_pre_warning = ls.notified_pre_warning ∧
    (maybePersist ls).break_seconds_left = ls.break_seconds_left := by
  simp only [maybePersist]
  split <;> exact ⟨rfl, rfl, rfl, rfl⟩

/-- The paused section's loop-state component is exactly the throttled
persistence update. -/
theorem pausedStep_loop (ls : LoopState) (ts : TimerState) :
    (pausedStep ls ts).1 = maybePersist ls := by
  rcases hm : ts.manual_pause_seconds_remaining with _ | ⟨_ | r⟩ <;> simp [pausedStep, hm]

/-- The working section's emission trace: an optional pre-break notification,
the timer tick with the decremented countdown, and a break-start exactly when
the countdown reached zero; the notified flag is set exactly when the
notification fired. -/
theorem workStep_events (bd pw : Nat) (ls : LoopState) (ts : TimerState) :
    (workStep bd pw ls ts).2.2 =
      (if ls.notified_pre_warning = false ∧ 0 < pw ∧ ts.seconds_remaining - 1 = pw then
        [Event.preBreakNotification pw]
       else []) ++
      [Event.timerTick (ts.seconds_remaining - 1) false none] ++
      (if ts.seconds_remaining - 1 = 0 then [Event.breakStart bd] else []) ∧
    (workStep bd pw ls ts).1.notified_pre_warning =
      (if ls.notified_pre_warning = false ∧ 0 < pw ∧ ts.seconds_remaining - 1 = pw then true
       else ls.notified_pre_warning) := by
  obtain ⟨sec, ip, pr, ism, wis, mp⟩ := ts
  rcases Nat.eq_zero_or_pos sec with h0 | h0
  · subst h0
    simp only [workStep, maybePersist]
    constructor <;> (repeat' split) <;> simp_all <;> omega
  · obtain ⟨n, rfl⟩ : ∃ n, sec = n + 1 := ⟨sec - 1, by omega⟩
    simp only [workStep, maybePersist]
    constructor <;> (repeat' split) <;> simp_all

/-- A break tick with at least two seconds left on the local counter:
decrement the counter and emit one break-tick event; the timer state is
untouched. -/
theorem tick_break_run (cfg : AppConfig) (mn : Bool) (ls : LoopState) (ts : TimerState)
    (hmd : cfg.meeting_detection = false) (hws : ls.was_sleeping = false)
    (hba : ls.break_active = true) (h2 : 2 ≤ ls.break_seconds_left) :
    tick cfg false mn ls ts =
      ({ ls with
          meeting_poll_counter := ls.meeting_poll_counter + 1
          break_seconds_left := ls.break_seconds_left - 1 }, ts,
        [Event.breakTick (ls.break_seconds_left - 1)]) := by
  obtain ⟨mpc, ba, bsl, np, pc, ws⟩ := ls
  rw [tick_awake cfg mn ⟨mpc, ba, bsl, np, pc, ws⟩ ts hws, hmd]
  rw [meetingStep_disabled]
  have hnz : bsl - 1 ≠ 0 := by simp at h2 ⊢; omega
  simp_all [breakStep]

/-- A break tick with the local counter at one (or zero): the decrement hits
zero, the break ends, the work countdown is reset to the configured interval
and exactly one break-end event is emitted. -/
theorem tick_break_last (cfg : AppConfig) (mn : Bool) (ls : LoopState) (ts : TimerState)
    (hmd : cfg.meeting_detection = false) (hws : ls.was_sleeping = false)
    (hba : ls.break_active = true) (h1 : ls.break_seconds_left ≤ 1) :
    tick cfg false mn ls ts =
      ({ ls with
          meeting_poll_counter := ls.meeting_poll_counter + 1
          break_active := false
          notified_pre_warning := false
          break_seconds_left := 0 },
        { ts with
          seconds_remaining := intervalOf cfg.work_interval_minutes
          is_paused := false
          pause_reason := none },
        [Event.breakEnd false]) := by
  obtain ⟨mpc, ba, bsl, np, pc, ws⟩ := ls
  rw [tick_awake cfg mn ⟨mpc, ba, bsl, np, pc, ws⟩ ts hws, hmd]
  rw [meetingStep_disabled]
  have hz : bsl - 1 = 0 := by simp at h1 ⊢; omega
  simp_all [breakStep]

/-- Claim C5: with strict mode on, the skip command and the pause command
both return a descriptive error and leave every field of the timer state
unchanged, for every minutes value. -/
theorem C5_strict_gating (ts : TimerState) (m : Nat) (h : ts.is_strict_mode = true) :
    skip_break ts = (Except.error "Strict mode: cannot skip breaks", ts) ∧
    pause_timer m ts = (Except.error "Strict mode: cannot pause timer", ts) := by
  simp [skip_break, pause_timer, h]

/-- Witness for claim C5 at a concrete strict-mode state and minutes value. -/
theorem C5_strict_gating_witness :
    skip_break ⟨1200, false, none, true, 1200, none⟩ =
      (Except.error "Strict mode: cannot skip breaks", ⟨1200, false, none, true, 1200, none⟩) ∧
    pause_timer 30 ⟨1200, false, none, true, 1200, none⟩ =
      (Except.error "Strict mode: cannot pause timer", ⟨1200, false, none, true, 1200, none⟩) :=
  C5_strict_gating ⟨1200, false, none, true, 1200, none⟩ 30 rfl

/-- Claim C10: when strict mode is off and the timer is meeting-paused, the
pause command succeeds, overwriting the pause reason to Manual with the
auto-resume countdown set to minutes times 60 (u32 arithmetic), and a
subsequent resume command also succeeds and clears the pause — escaping the
meeting pause without meeting-end detection. -/
theorem C10_pause_resume_escape (ts : TimerState) (m : Nat)
    (hstrict : ts.is_strict_mode = false)
    (hreason : ts.pause_reason = some PauseReason.Meeting) :
    pause_timer m ts =
      (Except.ok (),
        { ts with
          is_paused := true
          pause_reason := some PauseReason.Manual
          manual_pause_seconds_remaining := some (m * 60 % u32Mod) }) ∧
    resume_timer (pause_timer m ts).2 =
      (Except.ok (),
        { ts with
          is_paused := false
          pause_reason := none
          manual_pause_seconds_remaining := none }) := by
  cases ts
  simp_all [pause_timer, resume_timer]

/-- Witness for claim C10 at a concrete meeting-paused state. -/
theorem C10_pause_resume_escape_witness :
    pause_timer 5 ⟨500, true, some PauseReason.Meeting, false, 1200, none⟩ =
      (Except.ok (), ⟨500, true, some PauseReason.Manual, false, 1200, some 300⟩) ∧
    resume_timer (pause_timer 5 ⟨500, true, some PauseReason.Meeting, false, 1200, none⟩).2 =
      (Except.ok (), ⟨500, false, none, false, 1200, none⟩) :=
  C10_pause_resume_escape ⟨500, true, some PauseReason.Meeting, false, 1200, none⟩ 5 rfl rfl

/-- Claim C1 counterexample: on a meeting-paused state with strict mode off,
the skip command — an operation other than the loop's meeting-end branch —
succeeds and transitions the state to unpaused, refuting the claim that no
operation other than meeting-end detection leaves the meeting pause. -/
theorem C1_cex :
    (skip_break ⟨700, true, some PauseReason.Meeting, false, 1200, none⟩).1 = Except.ok () ∧
    (skip_break ⟨700, true, some PauseReason.Meeting, false, 1200, none⟩).2.is_paused = false ∧
    (skip_break ⟨700, true, some PauseReason.Meeting, false, 1200, none⟩).2.pause_reason = none :=
  ⟨rfl, by decide, by decide⟩

/-- Claim C1 amended: while the pause reason is Meeting, the resume command
fails with a descriptive error and leaves the timer state unchanged, and the
loop's meeting-end branch clears the pause; however the skip command (when
strict mode is off), the force-skip command, and the wake transition also
transition the state to unpaused. -/
theorem C1_meeting_pause (ts : TimerState)
    (h : ts.pause_reason = some PauseReason.Meeting) :
    resume_timer ts = (Except.error "Cannot manually resume — meeting in progress", ts) ∧
    (∀ cfg ls, ls.was_sleeping = false → 29 ≤ ls.meeting_poll_counter →
      cfg.meeting_detection = true → ls.break_active = false →
      (tick cfg false false ls ts).2.1.is_paused = false ∧
      (tick cfg false false ls ts).2.1.pause_reason = none) ∧
    (ts.is_strict_mode = false →
      (skip_break ts).1 = Except.ok () ∧ (skip_break ts).2.is_paused = false) ∧
    (force_skip_break ts).2.1.is_paused = false ∧
    (∀ cfg meeting_now ls, ls.was_sleeping = true →
      (tick cfg false meeting_now ls ts).2.1.is_paused = false) := by
  refine ⟨?_, ?_, ?_, ?_, ?_⟩
  · simp [resume_timer, h]
  · intro cfg ls hws hpoll hmd hba
    rw [tick_awake cfg false ls ts hws, hmd]
    simp only [meetingStep_end (intervalOf cfg.work_interval_minutes) ls ts h hpoll, hba]
    simp [workStep_timer]
  · intro hs
    simp [skip_break, hs]
  · simp [force_skip_break]
  · intro cfg meeting_now ls hws
    simp [tick, hws]

/-- Witness for claim C1 at a concrete meeting-paused state. -/
theorem C1_meeting_pause_witness :
    resume_timer ⟨700, true, some PauseReason.Meeting, false, 1200, none⟩ =
      (Except.error "Cannot manually resume — meeting in progress",
        ⟨700, true, some PauseReason.Meeting, false, 1200, none⟩) :=
  (C1_meeting_pause ⟨700, true, some PauseReason.Meeting, false, 1200, none⟩ rfl).1

/-- Claim C8 counterexample: a reachable state violating the invariant.
From a fresh non-strict state, pause for one minute (setting the Manual
reason and a 60-second countdown) and then skip: the skip command clears the
pause reason to none but leaves manual_pause_seconds_remaining at some 60. -/
theorem C8_cex :
    ((skip_break (pause_timer 1 (TimerState.new cfgA)).2).2.pause_reason = none) ∧
    ((skip_break (pause_timer 1 (TimerState.new cfgA)).2).2.manual_pause_seconds_remaining
      = some 60) := by
  decide

/-- Claim C8 amended: the pause command is the only operation that sets
manual_pause_seconds_remaining to some value, and the resume command, the
wake transition, and the expiry branch of the paused loop step clear it; but
the skip command, the force-skip command and the loop's meeting branches set
the pause reason to Meeting or none while leaving
manual_pause_seconds_remaining unchanged, so a stale some value can persist
with a pause reason other than Manual. -/
theorem C8_manual_pause_field :
    (∀ ts m, ts.is_strict_mode = false →
      (pause_timer m ts).2.pause_reason = some PauseReason.Manual ∧
      (pause_timer m ts).2.manual_pause_seconds_remaining = some (m * 60 % u32Mod)) ∧
    (∀ ts, ts.pause_reason ≠ some PauseReason.Meeting →
      (resume_timer ts).2.pause_reason = none ∧
      (resume_timer ts).2.manual_pause_seconds_remaining = none) ∧
    (∀ ts, (skip_break ts).2.manual_pause_seconds_remaining =
      ts.manual_pause_seconds_remaining) ∧
    (∀ ts, (force_skip_break ts).2.1.manual_pause_seconds_remaining =
      ts.manual_pause_seconds_remaining) ∧
    (∀ ci md mn ls ts, (meetingStep ci md mn ls ts).2.manual_pause_seconds_remaining =
      ts.manual_pause_seconds_remaining) ∧
    (∀ cfg mn ls ts, ls.was_sleeping = true →
      (tick cfg false mn ls ts).2.1.manual_pause_seconds_remaining = none) := by
  refine ⟨?_, ?_, ?_, ?_, ?_, ?_⟩
  · intro ts m hs
    simp [pause_timer, hs]
  · intro ts h
    simp [resume_timer, h]
  · intro ts
    by_cases hs : ts.is_strict_mode = true <;> simp [skip_break, hs]
  · intro ts
    simp [force_skip_break]
  · intro ci md mn ls ts
    exact (meetingStep_timer ci md mn ls ts).2.2.1
  · intro cfg mn ls ts hws
    simp [tick, hws]

/-- Witness for claim C8's amended theorem at concrete inputs. -/
theorem C8_manual_pause_field_witness :
    (pause_timer 1 (TimerState.new cfgA)).2.pause_reason = some PauseReason.Manual ∧
    (pause_timer 1 (TimerState.new cfgA)).2.manual_pause_seconds_remaining = some 60 :=
  C8_manual_pause_field.1 (TimerState.new cfgA) 1 rfl

/-- Claim C3 counterexample: the restore-time elapsed seconds are truncated
from u64 to u32 before the saturating subtraction, so with a persisted record
of 100 seconds saved at unix time 0 and a restore 2^32 seconds later — an
elapsed time no smaller than the record — the restored state keeps
seconds_remaining at 100 instead of starting fresh at the full 1200-second
interval, refuting the claim's second case. -/
theorem C3_cex :
    (100 : Nat) ≤ 4294967296 ∧
    (restore_or_create (some ⟨100, 0⟩) (0 + 4294967296) cfgA).seconds_remaining = 100 ∧
    (TimerState.new cfgA).seconds_remaining = 1200 ∧
    restore_or_create (some ⟨100, 0⟩) (0 + 4294967296) cfgA ≠ TimerState.new cfgA := by
  refine ⟨by norm_num, ?_, by decide, ?_⟩ <;> decide

/-- Claim C3 amended: for every persisted record with seconds S saved at time
T and restore time T plus an elapsed Δ smaller than 2^32 (the u32 truncation
threshold of the elapsed-seconds cast), with work interval I: if S exceeds I
the record is discarded and the state is fresh with the full interval; if
Δ is at least S the state is fresh; otherwise the restored state has
seconds_remaining equal to S minus Δ, unpaused, with no manual-pause
countdown. -/
theorem C3_restore_roundtrip (S T Δ : Nat) (cfg : AppConfig) (hΔ : Δ < u32Mod) :
    (intervalOf cfg.work_interval_minutes < S →
      restore_or_create (some ⟨S, T⟩) (T + Δ) cfg = TimerState.new cfg) ∧
    (S ≤ intervalOf cfg.work_interval_minutes → S ≤ Δ →
      restore_or_create (some ⟨S, T⟩) (T + Δ) cfg = TimerState.new cfg) ∧
    (Δ < S → S ≤ intervalOf cfg.work_interval_minutes →
      restore_or_create (some ⟨S, T⟩) (T + Δ) cfg =
        { seconds_remaining := S - Δ
          is_paused := false
          pause_reason := none
          is_strict_mode := cfg.strict_mode
          work_interval_seconds := intervalOf cfg.work_interval_minutes
          manual_pause_seconds_remaining := none }) ∧
    (TimerState.new cfg).seconds_remaining = intervalOf cfg.work_interval_minutes := by
  have helapsed : T + Δ - T = Δ := by omega
  have hmod : Δ % u32Mod = Δ := Nat.mod_eq_of_lt hΔ
  refine ⟨?_, ?_, ?_, rfl⟩
  · intro hSI
    simp [restore_or_create, hSI]
  · intro hSI hΔS
    have hz : S - Δ = 0 := by omega
    simp [restore_or_create, helapsed, hmod, hz, Nat.not_lt.mpr hSI]
  · intro hΔS hSI
    have hnz : ¬ (S - Δ = 0) := by omega
    simp [restore_or_create, helapsed, hmod, hnz, Nat.not_lt.mpr hSI]

/-- Witness for claim C3's amended theorem: a record of 100 seconds saved at
time 1000 and restored 40 seconds later yields 60 seconds remaining. -/
theorem C3_restore_roundtrip_witness :
    restore_or_create (some ⟨100, 1000⟩) (1000 + 40) cfgA =
      { seconds_remaining := 60
        is_paused := false
        pause_reason := none
        is_strict_mode := false
        work_interval_seconds := 1200
        manual_pause_seconds_remaining := none } :=
  (C3_restore_roundtrip 100 1000 40 cfgA (by decide)).2.2.1 (by decide) (by decide)

/-- Claim C2 counterexample: save_config updates the work interval on the
timer state without clamping seconds_remaining.  Saving a validated
20-minute config over a fresh 25-minute state leaves seconds_remaining at
1500 while work_interval_seconds drops to 1200, violating the invariant. -/
theorem C2_cex :
    (save_config cfgA (TimerState.new cfgC)).2.seconds_remaining = 1500 ∧
    (save_config cfgA (TimerState.new cfgC)).2.work_interval_seconds = 1200 ∧
    ¬ ((save_config cfgA (TimerState.new cfgC)).2.seconds_remaining ≤
        (save_config cfgA (TimerState.new cfgC)).2.work_interval_seconds) := by
  decide

/-- Claim C2 amended: seconds_remaining never exceeds work_interval_seconds
after a loop tick (whenever the state's work interval agrees with the config
snapshot's interval, as every operation maintains), after restore, and after
the skip, pause, resume and force-skip commands; the working section's
decrement is the guarded truncated subtraction by one, flooring at zero
without wrapping.  The save-config command, however, can break the bound, as
the counterexample shows. -/
theorem C2_seconds_bound :
    (∀ cfg sl mn ls ts,
      ts.work_interval_seconds = intervalOf cfg.work_interval_minutes →
      ts.seconds_remaining ≤ ts.work_interval_seconds →
      (tick cfg sl mn ls ts).2.1.seconds_remaining ≤
        (tick cfg sl mn ls ts).2.1.work_interval_seconds) ∧
    (∀ p now cfg, (restore_or_create p now cfg).seconds_remaining ≤
      (restore_or_create p now cfg).work_interval_seconds) ∧
    (∀ ts, ts.seconds_remaining ≤ ts.work_interval_seconds →
      (skip_break ts).2.seconds_remaining ≤ (skip_break ts).2.work_interval_seconds) ∧
    (∀ m ts, ts.seconds_remaining ≤ ts.work_interval_seconds →
      (pause_timer m ts).2.seconds_remaining ≤ (pause_timer m ts).2.work_interval_seconds) ∧
    (∀ ts, ts.seconds_remaining ≤ ts.work_interval_seconds →
      (resume_timer ts).2.seconds_remaining ≤ (resume_timer ts).2.work_interval_seconds) ∧
    (∀ ts, (force_skip_break ts).2.1.seconds_remaining ≤
      (force_skip_break ts).2.1.work_interval_seconds) ∧
    (∀ bd pw ls ts, (workStep bd pw ls ts).2.1.seconds_remaining =
      ts.seconds_remaining - 1) := by
  refine ⟨?_, ?_, ?_, ?_, ?_, ?_, ?_⟩
  · intro cfg sl mn ls ts hsync hle
    cases sl with
    | true =>
      cases hws : ls.was_sleeping with
      | false => simp [tick, hws, hle]
      | true => simp [tick, hws, hle]
    | false =>
      cases hws : ls.was_sleeping with
      | true => simp [tick, hws]
      | false =>
        rw [tick_awake cfg mn ls ts hws]
        obtain ⟨hw, hstr, hman, hsec⟩ :=
          meetingStep_timer (intervalOf cfg.work_interval_minutes) cfg.meeting_detection mn ls ts
        have hsecle :
            (meetingStep (intervalOf cfg.work_interval_minutes) cfg.meeting_detection mn
              ls ts).2.seconds_remaining ≤ ts.work_interval_seconds := by
          rcases hsec with h | h
          · rw [h, ← hsync]
          · rw [h]; exact hle
        split
        · obtain ⟨bw, bsec⟩ :=
            breakStep_timer (intervalOf cfg.work_interval_minutes)
              (meetingStep (intervalOf cfg.work_interval_minutes) cfg.meeting_detection mn ls ts).1
              (meetingStep (intervalOf cfg.work_interval_minutes) cfg.meeting_detection mn ls ts).2
          rw [bw, hw]
          rcases bsec with h | h
          · rw [h, ← hsync]
          · rw [h]; exact hsecle
        · split
          · obtain ⟨ps, pw', _, _⟩ :=
              pausedStep_timer
                (meetingStep (intervalOf cfg.work_interval_minutes) cfg.meeting_detection mn
                  ls ts).1
                (meetingStep (intervalOf cfg.work_interval_minutes) cfg.meeting_detection mn
                  ls ts).2
            rw [ps, pw', hw]
            exact hsecle
          · rw [workStep_timer]
            simp only []
            rw [hw]
            omega
  · intro p now cfg
    rcases p with _ | ⟨S, T⟩
    · simp [restore_or_create, TimerState.new]
    · simp only [restore_or_create]
      split
      · simp [TimerState.new]
      · split
        · simp [TimerState.new]
        · simp only []
          rename_i hSI hnz
          simp only [Nat.not_lt] at *
          omega
  · intro ts hle
    by_cases hs : ts.is_strict_mode = true <;> simp [skip_break, hs, hle]
  · intro m ts hle
    by_cases hs : ts.is_strict_mode = true <;> simp [pause_timer, hs, hle]
  · intro ts hle
    by_cases hs : ts.pause_reason = some PauseReason.Meeting <;> simp [resume_timer, hs, hle]
  · intro ts
    simp [force_skip_break]
  · intro bd pw ls ts
    rw [workStep_timer]

/-- Witness for claim C2's amended theorem: one tick from a fresh 20-minute
state keeps seconds_remaining within the work interval. -/
theorem C2_seconds_bound_witness :
    (tick cfgA false false LoopState.init (TimerState.new cfgA)).2.1.seconds_remaining ≤
      (tick cfgA false false LoopState.init (TimerState.new cfgA)).2.1.work_interval_seconds :=
  C2_seconds_bound.1 cfgA false false LoopState.init (TimerState.new cfgA) rfl (by decide)

/-- Claim C6: when the meeting probe runs on a tick (detection enabled,
30th poll) and reports a meeting while a break is active and the timer is not
already meeting-paused, the tick ends meeting-paused with seconds_remaining
reset to the full configured interval, the break abandoned, and no break-tick
or break-end event is emitted for the aborted break. -/
theorem C6_meeting_precedence (cfg : AppConfig) (ls : LoopState) (ts : TimerState)
    (hmd : cfg.meeting_detection = true) (hws : ls.was_sleeping = false)
    (hpoll : 29 ≤ ls.meeting_poll_counter) (hba : ls.break_active = true)
    (hnm : ts.pause_reason ≠ some PauseReason.Meeting) :
    (tick cfg false true ls ts).2.1.is_paused = true ∧
    (tick cfg false true ls ts).2.1.pause_reason = some PauseReason.Meeting ∧
    (tick cfg false true ls ts).2.1.seconds_remaining = intervalOf cfg.work_interval_minutes ∧
    (tick cfg false true ls ts).1.break_active = false ∧
    countBreakTick (tick cfg false true ls ts).2.2 = 0 ∧
    countBreakEnd (tick cfg false true ls ts).2.2 = 0 := by
  have habort :
      tick cfg false true ls ts =
        pausedStep ({ ls with meeting_poll_counter := 0, break_active := false })
          ({ ts with
              seconds_remaining := intervalOf cfg.work_interval_minutes
              is_paused := true
              pause_reason := some PauseReason.Meeting }) := by
    rw [tick_awake cfg true ls ts hws, hmd]
    simp [meetingStep_abort (intervalOf cfg.work_interval_minutes) ls ts hnm hpoll hba]
  obtain ⟨hsec, hwis, hstr, hmeet⟩ :=
    pausedStep_timer ({ ls with meeting_poll_counter := 0, break_active := false })
      ({ ts with
          seconds_remaining := intervalOf cfg.work_interval_minutes
          is_paused := true
          pause_reason := some PauseReason.Meeting })
  obtain ⟨hip, hpr⟩ := hmeet rfl
  obtain ⟨s, b, pp, he⟩ :=
    pausedStep_events ({ ls with meeting_poll_counter := 0, break_active := false })
      ({ ts with
          seconds_remaining := intervalOf cfg.work_interval_minutes
          is_paused := true
          pause_reason := some PauseReason.Meeting })
  refine ⟨?_, ?_, ?_, ?_, ?_, ?_⟩
  · rw [habort, hip]
  · rw [habort, hpr]
  · rw [habort, hsec]
  · rw [habort, pausedStep_loop]
    exact (maybePersist_fields _).1
  · rw [habort, he]
    simp [countBreakTick]
  · rw [habort, he]
    simp [countBreakEnd]

/-- Witness for claim C6 at a concrete meeting-interrupted break. -/
theorem C6_meeting_precedence_witness :
    (tick cfgA false true ⟨29, true, 10, false, 0, false⟩
        ⟨0, false, none, false, 1200, none⟩).2.1.seconds_remaining =
      intervalOf cfgA.work_interval_minutes :=
  (C6_meeting_precedence cfgA ⟨29, true, 10, false, 0, false⟩
    ⟨0, false, none, false, 1200, none⟩ rfl rfl (by decide) rfl (by decide)).2.2.1

/-- Claim C7: the force-skip command always succeeds, resets the timer-state
fields and emits a forced break-end; but it has no access to the loop-local
break phase, so at a state with an active break (two seconds left on the
local counter) the next loop tick still runs the break countdown — it emits a
break-tick, leaves the freshly reset work countdown frozen at the full
interval instead of counting it down, and one tick later a second break-end
event is emitted.  The system is therefore not in the Working phase after a
force-skip during a break. -/
theorem C7_force_skip_bug :
    (force_skip_break ⟨0, false, none, false, 1200, none⟩).1 = Except.ok () ∧
    (force_skip_break ⟨0, false, none, false, 1200, none⟩).2.1 =
      ⟨1200, false, none, false, 1200, none⟩ ∧
    (force_skip_break ⟨0, false, none, false, 1200, none⟩).2.2 = [Event.breakEnd true] ∧
    (tick cfgA false false ⟨0, true, 2, false, 0, false⟩
      ⟨1200, false, none, false, 1200, none⟩).1.break_active = true ∧
    (tick cfgA false false ⟨0, true, 2, false, 0, false⟩
      ⟨1200, false, none, false, 1200, none⟩).2.2 = [Event.breakTick 1] ∧
    (tick cfgA false false ⟨0, true, 2, false, 0, false⟩
      ⟨1200, false, none, false, 1200, none⟩).2.1.seconds_remaining = 1200 ∧
    (tick cfgA false false
      (tick cfgA false false ⟨0, true, 2, false, 0, false⟩
        ⟨1200, false, none, false, 1200, none⟩).1
      (tick cfgA false false ⟨0, true, 2, false, 0, false⟩
        ⟨1200, false, none, false, 1200, none⟩).2.1).2.2 = [Event.breakEnd false] :=
  ⟨rfl, by decide, by decide, by decide, by decide, by decide, by decide⟩

/-- Claim C9 counterexample: with a 60-second interval and a 59-second lead
time, the first working tick fires the pre-break notification; a successful
skip then resets the countdown to the full interval, but the loop-local
notified flag is not cleared by the skip, so when the post-skip cycle reaches
the lead time again no notification fires — refuting that the flag is cleared
at skip. -/
theorem C9_cex :
    countPreWarn (tick cfgB false false LoopState.init (TimerState.new cfgB)).2.2 = 1 ∧
    (skip_break (tick cfgB false false LoopState.init (TimerState.new cfgB)).2.1).1 =
      Except.ok () ∧
    (skip_break (tick cfgB false false LoopState.init
      (TimerState.new cfgB)).2.1).2.seconds_remaining = 60 ∧
    cfgB.pre_warning_seconds = 59 ∧
    (tick cfgB false false (tick cfgB false false LoopState.init (TimerState.new cfgB)).1
      (skip_break (tick cfgB false false LoopState.init
        (TimerState.new cfgB)).2.1).2).2.1.seconds_remaining = 59 ∧
    countPreWarn (tick cfgB false false
      (tick cfgB false false LoopState.init (TimerState.new cfgB)).1
      (skip_break (tick cfgB false false LoopState.init
        (TimerState.new cfgB)).2.1).2).2.2 = 0 :=
  ⟨by decide, rfl, by decide, rfl, by decide, by decide⟩

/-- Claim C9 amended: on a working tick the pre-break notification fires
exactly when the lead time is positive, the decremented countdown equals the
lead time, and the loop-local notified flag is unset; firing sets the flag,
so at most one notification fires per work cycle; the flag is cleared when a
break ends (and on the sleep edge) — but not by the skip command, which
cannot reach the loop-local flag, so a tick whose flag is already set never
fires even at the lead time. -/
theorem C9_pre_warning :
    (∀ bd pw ls ts,
      countPreWarn (workStep bd pw ls ts).2.2 =
        (if ls.notified_pre_warning = false ∧ 0 < pw ∧ ts.seconds_remaining - 1 = pw then 1
         else 0)) ∧
    (∀ bd pw ls ts,
      (workStep bd pw ls ts).1.notified_pre_warning =
        (if ls.notified_pre_warning = false ∧ 0 < pw ∧ ts.seconds_remaining - 1 = pw then true
         else ls.notified_pre_warning)) ∧
    (∀ bd pw ls ts, ls.notified_pre_warning = true →
      countPreWarn (workStep bd pw ls ts).2.2 = 0) ∧
    (∀ ci ls ts, ls.break_seconds_left ≤ 1 →
      (breakStep ci ls ts).1.notified_pre_warning = false) := by
  have hcount : ∀ bd pw ls ts,
      countPreWarn (workStep bd pw ls ts).2.2 =
        (if ls.notified_pre_warning = false ∧ 0 < pw ∧ ts.seconds_remaining - 1 = pw then 1
         else 0) := by
    intro bd pw ls ts
    rw [(workStep_events bd pw ls ts).1]
    by_cases hc : ls.notified_pre_warning = false ∧ 0 < pw ∧ ts.seconds_remaining - 1 = pw
    · rw [if_pos hc, if_pos hc]
      simp only [countPreWarn, List.countP_append]
      split <;> simp [List.countP, List.countP.go]
    · rw [if_neg hc, if_neg hc]
      simp only [countPreWarn, List.countP_append]
      split <;> simp [List.countP, List.countP.go]
  refine ⟨hcount, ?_, ?_, ?_⟩
  · intro bd pw ls ts
    exact (workStep_events bd pw ls ts).2
  · intro bd pw ls ts hset
    rw [hcount bd pw ls ts]
    simp [hset]
  · intro ci ls ts h1
    have hz : ls.break_seconds_left - 1 = 0 := by omega
    simp [breakStep, hz]

/-- Witness for claim C9's amended theorem: on a concrete working tick at the
lead time but with the flag already set, no notification fires. -/
theorem C9_pre_warning_witness :
    countPreWarn (workStep 20 59 ⟨0, false, 0, true, 0, false⟩
      ⟨60, false, none, false, 60, none⟩).2.2 = 0 :=
  C9_pre_warning.2.2.1 20 59 ⟨0, false, 0, true, 0, false⟩
    ⟨60, false, none, false, 60, none⟩ rfl

/-- Running fewer ticks than the local break counter holds: no break-end is
emitted, the break stays active, the counter drops by the number of ticks,
and the timer state is untouched. -/
theorem runTicks_break_tail (cfg : AppConfig) (mn : Bool)
    (hmd : cfg.meeting_detection = false) :
    ∀ (k : Nat) (ls : LoopState) (ts : TimerState),
      ls.was_sleeping = false → ls.break_active = true → k < ls.break_seconds_left →
      countBreakEnd (runTicks cfg false mn k ls ts).2.2 = 0 ∧
      (runTicks cfg false mn k ls ts).1.was_sleeping = false ∧
      (runTicks cfg false mn k ls ts).1.break_active = true ∧
      (runTicks cfg false mn k ls ts).1.break_seconds_left = ls.break_seconds_left - k ∧
      (runTicks cfg false mn k ls ts).2.1 = ts := by
  intro k
  induction k with
  | zero =>
    intro ls ts hws hba hk
    simp [runTicks, countBreakEnd, hws, hba]
  | succ n ih =>
    intro ls ts hws hba hk
    have h2 : 2 ≤ ls.break_seconds_left := by omega
    have hstep := tick_break_run cfg mn ls ts hmd hws hba h2
    obtain ⟨hc, hw, hb, hbsl, hts⟩ :=
      ih ({ ls with
            meeting_poll_counter := ls.meeting_poll_counter + 1
            break_seconds_left := ls.break_seconds_left - 1 }) ts hws hba (by simp; omega)
    simp only [runTicks, hstep]
    refine ⟨?_, hw, hb, ?_, hts⟩
    · simp [countBreakEnd, List.countP_append] at hc ⊢
      exact hc
    · rw [hbsl]
      simp
      omega

/-- Running exactly as many ticks as the local break counter holds yields
exactly one break-end event. -/
theorem runTicks_break_end (cfg : AppConfig) (mn : Bool)
    (hmd : cfg.meeting_detection = false) :
    ∀ (D : Nat) (ls : LoopState) (ts : TimerState),
      ls.was_sleeping = false → ls.break_active = true → ls.break_seconds_left = D →
      1 ≤ D →
      countBreakEnd (runTicks cfg false mn D ls ts).2.2 = 1 := by
  intro D
  induction D with
  | zero =>
    intro ls ts hws hba hbsl hD
    omega
  | succ n ih =>
    intro ls ts hws hba hbsl hD
    cases n with
    | zero =>
      have hstep := tick_break_last cfg mn ls ts hmd hws hba (by omega)
      simp only [runTicks, hstep]
      simp [runTicks, countBreakEnd]
    | succ m =>
      have hstep := tick_break_run cfg mn ls ts hmd hws hba (by omega)
      have htail :=
        ih ({ ls with
              meeting_poll_counter := ls.meeting_poll_counter + 1
              break_seconds_left := ls.break_seconds_left - 1 }) ts hws hba
          (by simp; omega) (by omega)
      rw [runTicks_succ, hstep]
      simp [countBreakEnd, List.countP_append] at htail ⊢
      exact htail

/-- Claim C4: entering the break phase with the local counter at D and
ticking D times with no sleep and no meeting probe emits exactly one
break-end event, and it occurs on the D-th tick: the first D minus one ticks
emit none. -/
theorem C4_break_exactness (cfg : AppConfig) (mn : Bool) (D : Nat) (ls : LoopState)
    (ts : TimerState) (hmd : cfg.meeting_detection = false)
    (hws : ls.was_sleeping = false) (hba : ls.break_active = true)
    (hbsl : ls.break_seconds_left = D) (hD : 1 ≤ D) :
    countBreakEnd (runTicks cfg false mn (D - 1) ls ts).2.2 = 0 ∧
    countBreakEnd (runTicks cfg false mn D ls ts).2.2 = 1 := by
  constructor
  · exact (runTicks_break_tail cfg mn hmd (D - 1) ls ts hws hba (by omega)).1
  · exact runTicks_break_end cfg mn hmd D ls ts hws hba hbsl hD

/-- Witness for claim C4 with a 3-second break: two ticks emit no break-end,
three ticks emit exactly one. -/
theorem C4_break_exactness_witness :
    countBreakEnd (runTicks cfgB false false 2 ⟨0, true, 3, false, 0, false⟩
      ⟨0, false, none, false, 60, none⟩).2.2 = 0 ∧
    countBreakEnd (runTicks cfgB false false 3 ⟨0, true, 3, false, 0, false⟩
      ⟨0, false, none, false, 60, none⟩).2.2 = 1 :=
  C4_break_exactness cfgB false 3 ⟨0, true, 3, false, 0, false⟩
    ⟨0, false, none, false, 60, none⟩ rfl rfl rfl rfl (by decide)

end Twenty20
